import Mathlib

set_option linter.unusedVariables false

/-
Verification of the HAWQ QONNX export script (examples/export.py).

The script walks a quantized PyTorch model's module tree, replaces each
quantized layer (QuantAct, QuantLinear, QuantConv2d) by an export-friendly
module, registers symbolic graph hooks for the custom operators
hawq_onnx::Quant and hawq_onnx::BipolarQuant, and drives torch.onnx.export
on a deep copy of the model.

The embedding below models tensors and graph nodes abstractly (the script
never inspects tensor contents), the module tree as a mutual inductive
type, Python exceptions as Except, and the Python object store (needed for
the deep-copy frame claim) as a small heap of references.
-/

/-- An abstract torch tensor: the export script never computes with tensor
contents, it only moves tensors around and reads weight shapes. -/
structure Tensor where
  shape : List Nat
  data : List Int
deriving Repr, DecidableEq

/-- The autograd context argument `ctx` of a torch.autograd.Function; the
export script's forward passes ignore it entirely. -/
structure AutogradCtx where
  savedTensors : List Tensor
deriving Repr, DecidableEq

/-- DOMAIN_STRING = 'hawq_onnx' (export.py line 37). -/
def DOMAIN_STRING : String := "hawq_onnx"

/-- A node emitted into the ONNX graph by `g.op(...)`: qualified operator
name, tensor inputs in order, string attributes (suffix `_s`), integer
attributes (suffix `_i`), and whether `setType(OptionalType.ofTensor())`
was applied to the returned value. -/
structure GraphNode where
  opName : String
  inputs : List Tensor
  strAttrs : List (String × String)
  intAttrs : List (String × Int)
  isOptionalTensor : Bool
deriving Repr, DecidableEq

/-- The graph being traced: the list of nodes emitted so far. -/
abbrev Graph := List GraphNode

/-- `g.op(...)`: append one node to the graph and return it. -/
def Graph.op (g : Graph) (n : GraphNode) : Graph × GraphNode :=
  (g ++ [n], n)

namespace QuantFunc

/-- QuantFunc.forward (export.py lines 41-43): returns x unchanged. -/
def forward (ctx : AutogradCtx) (x scale zero_point bit_width : Tensor)
    (signed narrow_range : Int) (rounding_mode : String) : Tensor :=
  x

/-- QuantFunc.symbolic (export.py lines 45-53): emits one
`hawq_onnx::Quant` node with inputs x, scale, zero_point, bit_width,
string attribute rounding_mode, integer attributes signed and narrow,
and marks the returned value with OptionalType.ofTensor via setType
(recorded in the node's isOptionalTensor field). -/
def symbolic (g : Graph) (x scale zero_point bit_width : Tensor)
    (signed narrow_range : Int) (rounding_mode : String) : Graph × GraphNode :=
  Graph.op g
    { opName := DOMAIN_STRING ++ "::Quant"
    , inputs := [x, scale, zero_point, bit_width]
    , strAttrs := [("rounding_mode", rounding_mode)]
    , intAttrs := [("signed", signed), ("narrow", narrow_range)]
    , isOptionalTensor := true }

end QuantFunc

namespace BinaryQuantFunc

/-- BinaryQuantFunc.forward (export.py lines 57-59): returns x unchanged. -/
def forward (ctx : AutogradCtx) (x scale : Tensor) : Tensor :=
  x

/-- BinaryQuantFunc.symbolic (export.py lines 61-63): emits one
`hawq_onnx::BipolarQuant` node with inputs x and scale. -/
def symbolic (g : Graph) (x scale : Tensor) : Graph × GraphNode :=
  Graph.op g
    { opName := DOMAIN_STRING ++ "::BipolarQuant"
    , inputs := [x, scale]
    , strAttrs := []
    , intAttrs := []
    , isOptionalTensor := false }

end BinaryQuantFunc

namespace TruncFunc

/-- TruncFunc.forward (export.py lines 67-69): returns x unchanged. -/
def forward (ctx : AutogradCtx) (x scale zero_point input_bit_width output_bit_width : Tensor)
    (rounding_mode : String) : Tensor :=
  x

/-- TruncFunc.symbolic (export.py lines 71-75): emits one
`hawq_onnx::Trunc` node. -/
def symbolic (g : Graph) (x scale zero_point input_bit_width output_bit_width : Tensor)
    (rounding_mode : String) : Graph × GraphNode :=
  Graph.op g
    { opName := DOMAIN_STRING ++ "::Trunc"
    , inputs := [x, scale, zero_point, input_bit_width, output_bit_width]
    , strAttrs := [("rounding_mode", rounding_mode)]
    , intAttrs := []
    , isOptionalTensor := false }

end TruncFunc

/-- The attributes of a QuantAct layer that export.py reads (the QuantAct
class itself lives in utils.quantization_utils.quant_modules). -/
structure QuantActParams where
  act_scaling_factor : Tensor
  full_precision_flag : Bool
  activation_bit : Nat
  quant_mode : String
deriving Repr, DecidableEq

/-- The attributes of a QuantLinear layer that export.py reads; `bias =
none` models a layer object on which `hasattr(layer, 'bias')` is false. -/
structure QuantLinearParams where
  weight : Tensor
  bias : Option Tensor
  weight_integer : Tensor
  bias_integer : Tensor
  fix_flag : Bool
deriving Repr, DecidableEq

/-- The inner torch.nn.Conv2d module `layer.conv` of a QuantConv2d, kept
opaque: ExportQuantConv2d just stores it. -/
structure Conv2dData where
  weight : Tensor
  bias : Option Tensor
deriving Repr, DecidableEq

/-- The state built by ExportQuantAct.__init__ (export.py lines 79-95). -/
structure ExportQuantActData where
  export_mode : Bool
  scale : Tensor
  zero_point : Int
  bit_width : Nat
  narrow_range : Int
  rounding_mode : String
  signed : Int
deriving Repr, DecidableEq

/-- ExportQuantAct.__init__ (export.py lines 79-95): clone/detach of the
scaling factor is the identity on the abstract tensor value. -/
def mkExportQuantAct (layer : QuantActParams) : ExportQuantActData :=
  { export_mode := true
  , scale := layer.act_scaling_factor
  , zero_point := 0
  , bit_width := if layer.full_precision_flag then 32 else layer.activation_bit
  , narrow_range := 0
  , rounding_mode := "ROUND"
  , signed := if layer.quant_mode = "symmetric" then 1 else 0 }

/-- The torch.nn.Linear built by ExportQuantLinear.__init__, after its
weight/bias data have been overwritten. -/
structure LinearData where
  in_features : Nat
  out_features : Nat
  weight : Tensor
  bias : Option Tensor
deriving Repr, DecidableEq

/-- ExportQuantLinear.__init__ (export.py lines 106-124): in_features and
out_features come from the weight shape; fix_flag selects between the
float weight/bias and the integer weight/bias. -/
def mkExportQuantLinear (layer : QuantLinearParams) : LinearData :=
  let in_features := layer.weight.shape.getD 1 0
  let out_features := layer.weight.shape.getD 0 0
  match layer.bias with
  | some b =>
      if layer.fix_flag then
        { in_features := in_features, out_features := out_features
        , weight := layer.weight, bias := some b }
      else
        { in_features := in_features, out_features := out_features
        , weight := layer.weight_integer, bias := some layer.bias_integer }
  | none =>
      if layer.fix_flag then
        { in_features := in_features, out_features := out_features
        , weight := layer.weight, bias := none }
      else
        { in_features := in_features, out_features := out_features
        , weight := layer.weight_integer, bias := none }

/-- The quantization operator applied by an export module's forward pass
during tracing: which autograd Function was applied and with which
arguments. -/
inductive FuncCall where
  | binaryQuant (x scale : Tensor)
  | quant (x scale : Tensor) (zero_point : Int) (bit_width : Nat)
      (signed narrow_range : Int) (rounding_mode : String)
deriving Repr, DecidableEq

/-- BinaryQuantFunc.apply under tracing: records the applied op. -/
def BinaryQuantFunc.applyTraced (x scale : Tensor) : FuncCall :=
  FuncCall.binaryQuant x scale

/-- QuantFunc.apply under tracing: records the applied op. -/
def QuantFunc.applyTraced (x scale : Tensor) (zero_point : Int) (bit_width : Nat)
    (signed narrow_range : Int) (rounding_mode : String) : FuncCall :=
  FuncCall.quant x scale zero_point bit_width signed narrow_range rounding_mode

/-- ExportQuantAct.forward (export.py lines 97-101): dispatch on the
stored bit width; the act_scaling_factor argument is passed through as the
second result. -/
def ExportQuantAct.forward (m : ExportQuantActData) (x : Tensor)
    (act_scaling_factor : Option Tensor) : FuncCall × Option Tensor :=
  if m.bit_width = 1 then
    (BinaryQuantFunc.applyTraced x m.scale, act_scaling_factor)
  else
    (QuantFunc.applyTraced x m.scale m.zero_point m.bit_width
      m.signed m.narrow_range m.rounding_mode, act_scaling_factor)

/-
The module tree.  A Python nn.Module's submodules are attributes; dir()
enumerates them and replace_layers dispatches on isinstance.  `container`
models any nn.Module that is none of the quantized classes and not a
Sequential (for instance the top-level model class itself, or a custom
block): replace_layers does not recurse into it.  `plainLayer` models a
non-container, non-quantized layer such as torch.nn.ReLU.
-/

mutual

inductive NNModule : Type where
  | quantAct (p : QuantActParams)
  | quantLinear (p : QuantLinearParams)
  | quantConv2d (conv : Conv2dData)
  | quantBnConv2d
  | quantMaxPool2d
  | quantAveragePool2d
  | sequential (children : NNModuleList)
  | container (name : String) (children : NNModuleList)
  | exportQuantAct (e : ExportQuantActData)
  | exportQuantLinear (fc : LinearData)
  | exportQuantConv2d (conv : Conv2dData)
  | plainLayer (name : String)

inductive NNModuleList : Type where
  | nil
  | cons (m : NNModule) (ms : NNModuleList)

end

/-- `layer._get_name()`: the class name used in the unsupported-layer
error message and the default file name. -/
def NNModule.getName : NNModule → String
  | .quantAct _ => "QuantAct"
  | .quantLinear _ => "QuantLinear"
  | .quantConv2d _ => "QuantConv2d"
  | .quantBnConv2d => "QuantBnConv2d"
  | .quantMaxPool2d => "QuantMaxPool2d"
  | .quantAveragePool2d => "QuantAveragePool2d"
  | .sequential _ => "Sequential"
  | .container nm _ => nm
  | .exportQuantAct _ => "ExportQuantAct"
  | .exportQuantLinear _ => "ExportQuantLinear"
  | .exportQuantConv2d _ => "ExportQuantConv2d"
  | .plainLayer nm => nm

mutual

/-- The dispatch replace_layers performs on one attribute `layer` of the
module it is walking (export.py lines 145-155): supported quantized layers
are replaced by their export modules, Sequential containers are walked
recursively, unsupported quantized layers raise RuntimeError, and
everything else is left untouched. -/
def replaceChild : NNModule → Except String NNModule
  | .quantAct p => Except.ok (NNModule.exportQuantAct (mkExportQuantAct p))
  | .quantLinear p => Except.ok (NNModule.exportQuantLinear (mkExportQuantLinear p))
  | .quantConv2d c => Except.ok (NNModule.exportQuantConv2d c)
  | .sequential cs => Except.map NNModule.sequential (replaceList cs)
  | .quantBnConv2d =>
      Except.error ("Unsupported layer type found " ++ NNModule.getName NNModule.quantBnConv2d)
  | .quantMaxPool2d =>
      Except.error ("Unsupported layer type found " ++ NNModule.getName NNModule.quantMaxPool2d)
  | .quantAveragePool2d =>
      Except.error ("Unsupported layer type found " ++ NNModule.getName NNModule.quantAveragePool2d)
  | .container nm cs => Except.ok (NNModule.container nm cs)
  | .exportQuantAct e => Except.ok (NNModule.exportQuantAct e)
  | .exportQuantLinear fc => Except.ok (NNModule.exportQuantLinear fc)
  | .exportQuantConv2d c => Except.ok (NNModule.exportQuantConv2d c)
  | .plainLayer nm => Except.ok (NNModule.plainLayer nm)

/-- The `for name in dir(model)` loop body applied to each attribute in
order; the first RuntimeError aborts the walk. -/
def replaceList : NNModuleList → Except String NNModuleList
  | .nil => Except.ok NNModuleList.nil
  | .cons m ms =>
      match replaceChild m with
      | Except.error e => Except.error e
      | Except.ok m2 =>
          match replaceList ms with
          | Except.error e => Except.error e
          | Except.ok ms2 => Except.ok (NNModuleList.cons m2 ms2)

end

/-- replace_layers(model) (export.py lines 140-155): walk the attributes
of the model object itself; on a module with no submodule attributes the
loop finds nothing to replace. -/
def replace_layers : NNModule → Except String NNModule
  | .sequential cs => Except.map NNModule.sequential (replaceList cs)
  | .container nm cs => Except.map (NNModule.container nm) (replaceList cs)
  | m => Except.ok m

/-- True when an Except value is a successful result (no exception was
raised). -/
def isOkE {α : Type} : Except String α → Bool
  | Except.ok _ => true
  | Except.error _ => false

mutual

/-- A supported quantized layer (QuantAct, QuantLinear, QuantConv2d)
occurs somewhere in this module's tree, the module itself included. -/
def treeHasSupported : NNModule → Bool
  | NNModule.quantAct _ => true
  | NNModule.quantLinear _ => true
  | NNModule.quantConv2d _ => true
  | NNModule.sequential cs => listHasSupported cs
  | NNModule.container _ cs => listHasSupported cs
  | _ => false

def listHasSupported : NNModuleList → Bool
  | NNModuleList.nil => false
  | NNModuleList.cons m ms => treeHasSupported m || listHasSupported ms

end

mutual

/-- An unsupported quantized layer (QuantBnConv2d, QuantMaxPool2d,
QuantAveragePool2d) occurs somewhere in this module's tree. -/
def treeHasUnsupported : NNModule → Bool
  | NNModule.quantBnConv2d => true
  | NNModule.quantMaxPool2d => true
  | NNModule.quantAveragePool2d => true
  | NNModule.sequential cs => listHasUnsupported cs
  | NNModule.container _ cs => listHasUnsupported cs
  | _ => false

def listHasUnsupported : NNModuleList → Bool
  | NNModuleList.nil => false
  | NNModuleList.cons m ms => treeHasUnsupported m || listHasUnsupported ms

end

mutual

/-- Viewed as an attribute visited by the replace_layers walk: this module
is itself a supported quantized layer, or the walk (which recurses only
through Sequential) reaches one inside it. -/
def walkSupported : NNModule → Bool
  | NNModule.quantAct _ => true
  | NNModule.quantLinear _ => true
  | NNModule.quantConv2d _ => true
  | NNModule.sequential cs => listWalkSupported cs
  | _ => false

def listWalkSupported : NNModuleList → Bool
  | NNModuleList.nil => false
  | NNModuleList.cons m ms => walkSupported m || listWalkSupported ms

end

/-- Viewed as the root model: the replace_layers walk over the model's
attributes reaches a supported quantized layer. -/
def modelWalkSupported : NNModule → Bool
  | NNModule.sequential cs => listWalkSupported cs
  | NNModule.container _ cs => listWalkSupported cs
  | _ => false

mutual

/-- Viewed as an attribute visited by the replace_layers walk: this module
is itself an unsupported quantized layer, or the walk reaches one through
nested Sequential containers. -/
def walkUnsupported : NNModule → Bool
  | NNModule.quantBnConv2d => true
  | NNModule.quantMaxPool2d => true
  | NNModule.quantAveragePool2d => true
  | NNModule.sequential cs => listWalkUnsupported cs
  | _ => false

def listWalkUnsupported : NNModuleList → Bool
  | NNModuleList.nil => false
  | NNModuleList.cons m ms => walkUnsupported m || listWalkUnsupported ms

end

/-- Viewed as the root model: the replace_layers walk over the model's
attributes encounters an unsupported quantized layer. -/
def modelWalkUnsupported : NNModule → Bool
  | NNModule.sequential cs => listWalkUnsupported cs
  | NNModule.container _ cs => listWalkUnsupported cs
  | _ => false

mutual

/-- A size measure on module trees, counting only the nodes the
replace_layers recursion can visit; it bounds the recursion depth. -/
def moduleSize : NNModule → Nat
  | NNModule.sequential cs => listSize cs + 1
  | _ => 1

def listSize : NNModuleList → Nat
  | NNModuleList.nil => 1
  | NNModuleList.cons m ms => moduleSize m + listSize ms + 1

end

mutual

/-- A fuel-indexed variant of replaceChild, used to state that the
recursion of replace_layers terminates on every finite module tree: `none`
means the fuel ran out before the walk finished. -/
def replaceChildFuel : Nat → NNModule → Option (Except String NNModule)
  | 0, _ => none
  | Nat.succ n, NNModule.sequential cs =>
      match replaceListFuel n cs with
      | none => none
      | some (Except.error e) => some (Except.error e)
      | some (Except.ok cs2) => some (Except.ok (NNModule.sequential cs2))
  | Nat.succ _, m => some (replaceChild m)

/-- Fuel-indexed variant of replaceList. -/
def replaceListFuel : Nat → NNModuleList → Option (Except String NNModuleList)
  | 0, _ => none
  | Nat.succ _, NNModuleList.nil => some (Except.ok NNModuleList.nil)
  | Nat.succ n, NNModuleList.cons m ms =>
      match replaceChildFuel n m with
      | none => none
      | some (Except.error e) => some (Except.error e)
      | some (Except.ok m2) =>
          match replaceListFuel n ms with
          | none => none
          | some (Except.error e) => some (Except.error e)
          | some (Except.ok ms2) => some (Except.ok (NNModuleList.cons m2 ms2))

end

/-
The export driver.  To state the frame property of export_to_qonnx (the
original model object is not mutated; only the deep copy is), the Python
object store is modelled as a heap of module trees addressed by references,
and the symbolic-op registry as a list of registrations.
-/

/-- A registered symbolic hook: either QuantFunc.symbolic's shape or
BinaryQuantFunc.symbolic's shape. -/
inductive SymbolicHook where
  | quantHook (f : Graph → Tensor → Tensor → Tensor → Tensor → Int → Int → String →
      Graph × GraphNode)
  | bipolarHook (f : Graph → Tensor → Tensor → Graph × GraphNode)

/-- One call to torch.onnx.register_custom_op_symbolic: qualified op name,
symbolic function, opset version. -/
structure RegisteredOp where
  name : String
  hook : SymbolicHook
  opsetVersion : Nat

/-- register_custom_ops (export.py lines 159-161): appends registrations
for hawq_onnx::Quant and hawq_onnx::BipolarQuant, both at opset 1. -/
def register_custom_ops (reg : List RegisteredOp) : List RegisteredOp :=
  reg ++
    [ { name := DOMAIN_STRING ++ "::Quant"
      , hook := SymbolicHook.quantHook QuantFunc.symbolic
      , opsetVersion := 1 }
    , { name := DOMAIN_STRING ++ "::BipolarQuant"
      , hook := SymbolicHook.bipolarHook BinaryQuantFunc.symbolic
      , opsetVersion := 1 } ]

/-- The Python object store restricted to model objects: a reference is an
index into the list of live module trees. -/
structure Heap where
  objs : List NNModule

/-- Dereference: the tree held by a model object. -/
def Heap.getObj (h : Heap) (r : Nat) : NNModule :=
  h.objs.getD r (NNModule.container "invalid" NNModuleList.nil)

/-- Allocate a fresh object holding the given tree. -/
def Heap.alloc (h : Heap) (m : NNModule) : Heap × Nat :=
  ({ objs := h.objs ++ [m] }, h.objs.length)

/-- Overwrite the tree held by an existing object (in-place mutation). -/
def Heap.setObj (h : Heap) (r : Nat) (m : NNModule) : Heap :=
  { objs := h.objs.set r m }

/-- copy.deepcopy(model): a fresh object holding an equal tree, sharing no
mutable state with the original. -/
def deepcopy (h : Heap) (r : Nat) : Heap × Nat :=
  h.alloc (h.getObj r)

/-- The single call to torch.onnx.export performed by the driver. -/
structure OnnxExportCall where
  modelRef : Nat
  input : Tensor
  filename : String
deriving Repr, DecidableEq

/-- The state after a successful export_to_qonnx call. -/
structure ExportResult where
  heap : Heap
  registry : List RegisteredOp
  exportModel : Nat
  onnxCall : OnnxExportCall

/-- The default file name built from the model's class name and the
current date and time (export.py lines 169-173). -/
def defaultFilename (m : NNModule) (dateTime : String) : String :=
  NNModule.getName m ++ "_" ++ dateTime ++ ".onnx"

/-- export_to_qonnx (export.py lines 163-185).  The model and input
arguments are Options (None = none); the current date-time string is an
explicit argument since the embedding has no clock.  RuntimeErrors are
Except.error values; the replace_layers error propagates out of the
driver. -/
def export_to_qonnx (h : Heap) (reg : List RegisteredOp) (model : Option Nat)
    (input : Option Tensor) (filename : Option String) (dateTime : String) :
    Except String ExportResult :=
  match model with
  | none => Except.error "Model cannot be None"
  | some mref =>
      match input with
      | none => Except.error "Input cannot be None"
      | some inp =>
          let fname :=
            match filename with
            | none => defaultFilename (h.getObj mref) dateTime
            | some f => f
          let reg1 := register_custom_ops reg
          let hr := deepcopy h mref
          match replace_layers (Heap.getObj hr.1 hr.2) with
          | Except.error e => Except.error e
          | Except.ok newTree =>
              let h2 := Heap.setObj hr.1 hr.2 newTree
              Except.ok
                { heap := h2
                , registry := reg1
                , exportModel := hr.2
                , onnxCall := { modelRef := hr.2, input := inp, filename := fname } }

/-
Helper lemmas shared by the claim theorems.
-/

theorem moduleSize_pos (m : NNModule) : 1 ≤ moduleSize m := by
  cases m <;> simp [moduleSize]

theorem listSize_pos (ms : NNModuleList) : 1 ≤ listSize ms := by
  cases ms <;> simp [listSize]

mutual

theorem replaceChild_ok_eq (m : NNModule) :
    isOkE (replaceChild m) = !walkUnsupported m := by
  cases m with
  | sequential cs =>
      have h := replaceList_ok_eq cs
      cases hl : replaceList cs with
      | ok cs2 => simp_all [replaceChild, walkUnsupported, isOkE, Except.map, hl]
      | error e => simp_all [replaceChild, walkUnsupported, isOkE, Except.map, hl]
  | quantAct p => rfl
  | quantLinear p => rfl
  | quantConv2d c => rfl
  | quantBnConv2d => rfl
  | quantMaxPool2d => rfl
  | quantAveragePool2d => rfl
  | container nm cs => rfl
  | exportQuantAct e => rfl
  | exportQuantLinear fc => rfl
  | exportQuantConv2d c => rfl
  | plainLayer nm => rfl

theorem replaceList_ok_eq (ms : NNModuleList) :
    isOkE (replaceList ms) = !listWalkUnsupported ms := by
  cases ms with
  | nil => rfl
  | cons m ms =>
      have h1 := replaceChild_ok_eq m
      have h2 := replaceList_ok_eq ms
      cases hc : replaceChild m with
      | error e => simp_all [replaceList, listWalkUnsupported, isOkE, hc]
      | ok m2 =>
          cases hl : replaceList ms with
          | error e => simp_all [replaceList, listWalkUnsupported, isOkE, hc, hl]
          | ok ms2 => simp_all [replaceList, listWalkUnsupported, isOkE, hc, hl]

end

mutual

theorem walkUnsupported_imp_tree (m : NNModule) (h : walkUnsupported m = true) :
    treeHasUnsupported m = true := by
  cases m with
  | sequential cs =>
      have := listWalkUnsupported_imp_tree cs
      simp_all [walkUnsupported, treeHasUnsupported]
  | quantBnConv2d => rfl
  | quantMaxPool2d => rfl
  | quantAveragePool2d => rfl
  | quantAct p => simp [walkUnsupported] at h
  | quantLinear p => simp [walkUnsupported] at h
  | quantConv2d c => simp [walkUnsupported] at h
  | container nm cs => simp [walkUnsupported] at h
  | exportQuantAct e => simp [walkUnsupported] at h
  | exportQuantLinear fc => simp [walkUnsupported] at h
  | exportQuantConv2d c => simp [walkUnsupported] at h
  | plainLayer nm => simp [walkUnsupported] at h

theorem listWalkUnsupported_imp_tree (ms : NNModuleList)
    (h : listWalkUnsupported ms = true) : listHasUnsupported ms = true := by
  cases ms with
  | nil => simp [listWalkUnsupported] at h
  | cons m ms =>
      have h1 := walkUnsupported_imp_tree m
      have h2 := listWalkUnsupported_imp_tree ms
      simp [listWalkUnsupported] at h
      rcases h with h | h
      · simp [listHasUnsupported, h1 h]
      · simp [listHasUnsupported, h2 h]

end

mutual

theorem replaceChild_clears_supported (m m2 : NNModule)
    (h : replaceChild m = Except.ok m2) : walkSupported m2 = false := by
  cases m with
  | sequential cs =>
      cases hl : replaceList cs with
      | error e => simp [replaceChild, hl, Except.map] at h
      | ok cs2 =>
          have := replaceList_clears_supported cs cs2 hl
          simp [replaceChild, hl, Except.map] at h
          simp [← h, walkSupported, this]
  | quantAct p => simp [replaceChild] at h; simp [← h, walkSupported]
  | quantLinear p => simp [replaceChild] at h; simp [← h, walkSupported]
  | quantConv2d c => simp [replaceChild] at h; simp [← h, walkSupported]
  | quantBnConv2d => simp [replaceChild] at h
  | quantMaxPool2d => simp [replaceChild] at h
  | quantAveragePool2d => simp [replaceChild] at h
  | container nm cs => simp [replaceChild] at h; simp [← h, walkSupported]
  | exportQuantAct e => simp [replaceChild] at h; simp [← h, walkSupported]
  | exportQuantLinear fc => simp [replaceChild] at h; simp [← h, walkSupported]
  | exportQuantConv2d c => simp [replaceChild] at h; simp [← h, walkSupported]
  | plainLayer nm => simp [replaceChild] at h; simp [← h, walkSupported]

theorem replaceList_clears_supported (ms ms2 : NNModuleList)
    (h : replaceList ms = Except.ok ms2) : listWalkSupported ms2 = false := by
  cases ms with
  | nil =>
      simp [replaceList] at h
      simp [← h, listWalkSupported]
  | cons m ms =>
      cases hc : replaceChild m with
      | error e => simp [replaceList, hc] at h
      | ok m2 =>
          cases hl : replaceList ms with
          | error e => simp [replaceList, hc, hl] at h
          | ok ms3 =>
              have e1 := replaceChild_clears_supported m m2 hc
              have e2 := replaceList_clears_supported ms ms3 hl
              simp [replaceList, hc, hl] at h
              simp [← h, listWalkSupported, e1, e2]

end

mutual

theorem replaceChildFuel_complete (n : Nat) (m : NNModule)
    (h : moduleSize m ≤ n) : replaceChildFuel n m = some (replaceChild m) := by
  match n, m with
  | 0, m =>
      have := moduleSize_pos m
      omega
  | Nat.succ n, NNModule.sequential cs =>
      have hcs : listSize cs ≤ n := by
        simp [moduleSize] at h
        omega
      have hrw := replaceListFuel_complete n cs hcs
      cases hl : replaceList cs with
      | ok cs2 => simp [replaceChildFuel, hrw, hl, replaceChild, Except.map]
      | error e => simp [replaceChildFuel, hrw, hl, replaceChild, Except.map]
  | Nat.succ n, NNModule.quantAct p => rfl
  | Nat.succ n, NNModule.quantLinear p => rfl
  | Nat.succ n, NNModule.quantConv2d c => rfl
  | Nat.succ n, NNModule.quantBnConv2d => rfl
  | Nat.succ n, NNModule.quantMaxPool2d => rfl
  | Nat.succ n, NNModule.quantAveragePool2d => rfl
  | Nat.succ n, NNModule.container nm cs => rfl
  | Nat.succ n, NNModule.exportQuantAct e => rfl
  | Nat.succ n, NNModule.exportQuantLinear fc => rfl
  | Nat.succ n, NNModule.exportQuantConv2d c => rfl
  | Nat.succ n, NNModule.plainLayer nm => rfl

theorem replaceListFuel_complete (n : Nat) (ms : NNModuleList)
    (h : listSize ms ≤ n) : replaceListFuel n ms = some (replaceList ms) := by
  match n, ms with
  | 0, ms =>
      have := listSize_pos ms
      omega
  | Nat.succ n, NNModuleList.nil => rfl
  | Nat.succ n, NNModuleList.cons m ms =>
      have hm : moduleSize m ≤ n := by
        have := listSize_pos ms
        simp [listSize] at h
        omega
      have hms : listSize ms ≤ n := by
        have := moduleSize_pos m
        simp [listSize] at h
        omega
      have e1 := replaceChildFuel_complete n m hm
      have e2 := replaceListFuel_complete n ms hms
      cases hc : replaceChild m with
      | error e => simp [replaceListFuel, e1, e2, hc, replaceList]
      | ok m2 =>
          cases hl : replaceList ms with
          | error e => simp [replaceListFuel, e1, e2, hc, hl, replaceList]
          | ok ms2 => simp [replaceListFuel, e1, e2, hc, hl, replaceList]

end

/-
Concrete sample data used by counterexamples and witnesses.
-/

def sampleTensor : Tensor :=
  { shape := [1], data := [0] }

def sampleActParams : QuantActParams :=
  { act_scaling_factor := sampleTensor
  , full_precision_flag := false
  , activation_bit := 8
  , quant_mode := "symmetric" }

def sampleQuantAct : NNModule :=
  NNModule.quantAct sampleActParams

def sampleLinearParams : QuantLinearParams :=
  { weight := { shape := [2, 3], data := [1, 2, 3, 4, 5, 6] }
  , bias := some { shape := [2], data := [7, 8] }
  , weight_integer := { shape := [2, 3], data := [1, 1, 1, 1, 1, 1] }
  , bias_integer := { shape := [2], data := [2, 2] }
  , fix_flag := true }

/-- A model whose only quantized layer sits inside a custom (non-Sequential)
submodule, which the replace_layers walk does not enter. -/
def hiddenActModel : NNModule :=
  NNModule.container "Model"
    (NNModuleList.cons
      (NNModule.container "Block" (NNModuleList.cons sampleQuantAct NNModuleList.nil))
      NNModuleList.nil)

/-- A model with a QuantAct directly among its attributes. -/
def flatActModel : NNModule :=
  NNModule.container "Model" (NNModuleList.cons sampleQuantAct NNModuleList.nil)

/-- A model with an unsupported QuantBnConv2d directly among its attributes. -/
def unsupportedModel : NNModule :=
  NNModule.container "Model" (NNModuleList.cons NNModule.quantBnConv2d NNModuleList.nil)

/-
Claim theorems.
-/

/-- C2: the forward passes of the custom autograd functions are stateless
identities on the data tensor: QuantFunc.forward, BinaryQuantFunc.forward
and TruncFunc.forward return x unchanged for every choice of the remaining
arguments. -/
theorem forward_passes_are_identity :
    (∀ ctx x scale zero_point bit_width signed narrow_range rounding_mode,
        QuantFunc.forward ctx x scale zero_point bit_width signed narrow_range
          rounding_mode = x) ∧
    (∀ ctx x scale, BinaryQuantFunc.forward ctx x scale = x) ∧
    (∀ ctx x scale zero_point input_bit_width output_bit_width rounding_mode,
        TruncFunc.forward ctx x scale zero_point input_bit_width output_bit_width
          rounding_mode = x) :=
  ⟨fun _ _ _ _ _ _ _ _ => rfl, fun _ _ _ => rfl, fun _ _ _ _ _ _ _ => rfl⟩

/-- C4: register_custom_ops registers symbolic hooks for exactly the two
supported custom operators, hawq_onnx::Quant with QuantFunc.symbolic and
hawq_onnx::BipolarQuant with BinaryQuantFunc.symbolic, both at opset
version 1, and registers nothing else. -/
theorem register_custom_ops_exactly_two :
    ∀ reg, register_custom_ops reg =
      reg ++
        [ { name := DOMAIN_STRING ++ "::Quant"
          , hook := SymbolicHook.quantHook QuantFunc.symbolic
          , opsetVersion := 1 }
        , { name := DOMAIN_STRING ++ "::BipolarQuant"
          , hook := SymbolicHook.bipolarHook BinaryQuantFunc.symbolic
          , opsetVersion := 1 } ] :=
  fun _ => rfl

/-- C5: QuantFunc.symbolic emits a single node, appended to the graph,
named Quant in the hawq_onnx domain, with the data tensor x and the scale,
zero_point and bit_width tensors as inputs, rounding_mode as a string
attribute, and signed and narrow_range as integer attributes. -/
theorem quantFunc_symbolic_single_node :
    ∀ g x scale zero_point bit_width signed narrow_range rounding_mode,
      QuantFunc.symbolic g x scale zero_point bit_width signed narrow_range
          rounding_mode =
        (g ++
          [ { opName := DOMAIN_STRING ++ "::Quant"
            , inputs := [x, scale, zero_point, bit_width]
            , strAttrs := [("rounding_mode", rounding_mode)]
            , intAttrs := [("signed", signed), ("narrow", narrow_range)]
            , isOptionalTensor := true } ],
         { opName := DOMAIN_STRING ++ "::Quant"
         , inputs := [x, scale, zero_point, bit_width]
         , strAttrs := [("rounding_mode", rounding_mode)]
         , intAttrs := [("signed", signed), ("narrow", narrow_range)]
         , isOptionalTensor := true }) :=
  fun _ _ _ _ _ _ _ _ => rfl

/-- C6: replace_layers is a depth-first walk of the module tree: it maps
the type dispatch over the model's attributes, recurses into Sequential
containers and only into those (a non-Sequential container attribute is
returned untouched, so nothing below it is visited), and the recursion
terminates on every finite module tree, with depth bounded by the tree
size (the fuel-indexed walk already succeeds with moduleSize m fuel). -/
theorem replace_layers_is_terminating_walk :
    (∀ nm cs, replace_layers (NNModule.container nm cs) =
        Except.map (NNModule.container nm) (replaceList cs)) ∧
    (∀ cs, replaceChild (NNModule.sequential cs) =
        Except.map NNModule.sequential (replaceList cs)) ∧
    (∀ nm cs, replaceChild (NNModule.container nm cs) =
        Except.ok (NNModule.container nm cs)) ∧
    (∀ m, replaceChildFuel (moduleSize m) m = some (replaceChild m)) :=
  ⟨fun _ _ => rfl, fun _ => rfl, fun _ _ => rfl,
   fun m => replaceChildFuel_complete (moduleSize m) m (Nat.le_refl _)⟩

/-- C10: ExportQuantAct.forward dispatches on the configured bit width:
built from a QuantAct layer, it applies BinaryQuantFunc (with only x and
the scale) exactly when the stored bit width (32 under
full_precision_flag, activation_bit otherwise) is 1, and otherwise applies
QuantFunc with scale, zero point 0, the stored bit width, signed derived
from quant_mode, narrow_range 0 and rounding mode ROUND; the
act_scaling_factor argument is returned unchanged as second component. -/
theorem exportQuantAct_forward_dispatch :
    ∀ (layer : QuantActParams) (x : Tensor) (act_scaling_factor : Option Tensor),
      ExportQuantAct.forward (mkExportQuantAct layer) x act_scaling_factor =
        (if (if layer.full_precision_flag then 32 else layer.activation_bit) = 1 then
           FuncCall.binaryQuant x layer.act_scaling_factor
         else
           FuncCall.quant x layer.act_scaling_factor 0
             (if layer.full_precision_flag then 32 else layer.activation_bit)
             (if layer.quant_mode = "symmetric" then 1 else 0) 0 "ROUND",
         act_scaling_factor) := by
  intro layer x asf
  by_cases hf : layer.full_precision_flag
  · simp [ExportQuantAct.forward, mkExportQuantAct, BinaryQuantFunc.applyTraced,
      QuantFunc.applyTraced, hf]
  · simp [ExportQuantAct.forward, mkExportQuantAct, BinaryQuantFunc.applyTraced,
      QuantFunc.applyTraced, hf]
    split <;> rfl

/-- C7: ExportQuantLinear.__init__ copies attributes from the quantized
layer into a fresh Linear: in_features and out_features come from the
weight shape (second and first dimension), the weight is the layer's
weight when fix_flag holds and its weight_integer otherwise, and the bias,
present exactly when the layer has one, is the layer's bias when fix_flag
holds and its bias_integer otherwise. -/
theorem exportQuantLinear_copies_attributes :
    ∀ (layer : QuantLinearParams) (dOut dIn : Nat) (rest : List Nat),
      layer.weight.shape = dOut :: dIn :: rest →
      (mkExportQuantLinear layer).in_features = dIn ∧
      (mkExportQuantLinear layer).out_features = dOut ∧
      (mkExportQuantLinear layer).weight =
        (if layer.fix_flag then layer.weight else layer.weight_integer) ∧
      (mkExportQuantLinear layer).bias =
        (match layer.bias with
         | some b => some (if layer.fix_flag then b else layer.bias_integer)
         | none => none) := by
  intro layer dOut dIn rest h
  cases hb : layer.bias <;> cases hf : layer.fix_flag <;>
    simp [mkExportQuantLinear, h, hb, hf]

/-- Witness for C7 at a concrete layer with weight shape [2, 3]. -/
theorem exportQuantLinear_copies_attributes_witness :
    sampleLinearParams.weight.shape = 2 :: 3 :: [] ∧
    ((mkExportQuantLinear sampleLinearParams).in_features = 3 ∧
     (mkExportQuantLinear sampleLinearParams).out_features = 2 ∧
     (mkExportQuantLinear sampleLinearParams).weight =
       (if sampleLinearParams.fix_flag then sampleLinearParams.weight
        else sampleLinearParams.weight_integer) ∧
     (mkExportQuantLinear sampleLinearParams).bias =
       (match sampleLinearParams.bias with
        | some b => some (if sampleLinearParams.fix_flag then b
            else sampleLinearParams.bias_integer)
        | none => none)) :=
  ⟨rfl, exportQuantLinear_copies_attributes sampleLinearParams 2 3 [] rfl⟩

/-- Counterexample to C1 as stated: on a model whose QuantAct sits inside
a custom (non-Sequential) submodule, replace_layers returns with the model
unchanged, so a submodule of a supported quantized type (QuantAct) remains
in the module tree after the call. -/
theorem replace_layers_keeps_supported_inside_custom_container :
    replace_layers hiddenActModel = Except.ok hiddenActModel ∧
    treeHasSupported hiddenActModel = true :=
  ⟨rfl, rfl⟩

/-- C1 (amended): when replace_layers returns successfully, no submodule
of a supported quantized type remains at any position the walk visits,
that is, among the model's direct attributes and inside arbitrarily nested
Sequential containers; supported layers hidden inside non-Sequential
submodules are not visited and may remain. -/
theorem replace_layers_clears_visited_supported :
    ∀ m m2, replace_layers m = Except.ok m2 → modelWalkSupported m2 = false := by
  intro m m2 h
  cases m with
  | sequential cs =>
      cases hl : replaceList cs with
      | error e => simp [replace_layers, hl, Except.map] at h
      | ok cs2 =>
          have := replaceList_clears_supported cs cs2 hl
          simp [replace_layers, hl, Except.map] at h
          simp [← h, modelWalkSupported, this]
  | container nm cs =>
      cases hl : replaceList cs with
      | error e => simp [replace_layers, hl, Except.map] at h
      | ok cs2 =>
          have := replaceList_clears_supported cs cs2 hl
          simp [replace_layers, hl, Except.map] at h
          simp [← h, modelWalkSupported, this]
  | quantAct p => simp [replace_layers] at h; simp [← h, modelWalkSupported]
  | quantLinear p => simp [replace_layers] at h; simp [← h, modelWalkSupported]
  | quantConv2d c => simp [replace_layers] at h; simp [← h, modelWalkSupported]
  | quantBnConv2d => simp [replace_layers] at h; simp [← h, modelWalkSupported]
  | quantMaxPool2d => simp [replace_layers] at h; simp [← h, modelWalkSupported]
  | quantAveragePool2d => simp [replace_layers] at h; simp [← h, modelWalkSupported]
  | exportQuantAct e => simp [replace_layers] at h; simp [← h, modelWalkSupported]
  | exportQuantLinear fc => simp [replace_layers] at h; simp [← h, modelWalkSupported]
  | exportQuantConv2d c => simp [replace_layers] at h; simp [← h, modelWalkSupported]
  | plainLayer nm => simp [replace_layers] at h; simp [← h, modelWalkSupported]

/-- Witness for the amended C1 on a concrete flat model. -/
theorem replace_layers_clears_visited_supported_witness :
    modelWalkSupported
      (NNModule.container "Model"
        (NNModuleList.cons (NNModule.exportQuantAct (mkExportQuantAct sampleActParams))
          NNModuleList.nil)) = false :=
  replace_layers_clears_visited_supported flatActModel
    (NNModule.container "Model"
      (NNModuleList.cons (NNModule.exportQuantAct (mkExportQuantAct sampleActParams))
        NNModuleList.nil)) rfl

/-- C8: replace_layers raises a RuntimeError whenever the walk encounters
an unsupported quantized layer (QuantBnConv2d, QuantMaxPool2d,
QuantAveragePool2d), whether directly among the model's attributes or
inside arbitrarily nested Sequential containers, and raises no error on a
model containing no unsupported layer anywhere in its tree. -/
theorem replace_layers_unsupported_error :
    ∀ m, (modelWalkUnsupported m = true → isOkE (replace_layers m) = false) ∧
         (treeHasUnsupported m = false → isOkE (replace_layers m) = true) := by
  intro m
  cases m with
  | sequential cs =>
      have hiff := replaceList_ok_eq cs
      constructor
      · intro h
        cases hl : replaceList cs with
        | error e => simp [replace_layers, hl, Except.map, isOkE]
        | ok cs2 =>
            rw [hl] at hiff
            simp [modelWalkUnsupported] at h
            simp [isOkE, h] at hiff
      · intro h
        have hw : listWalkUnsupported cs = false := by
          cases hlw : listWalkUnsupported cs with
          | false => rfl
          | true =>
              have := listWalkUnsupported_imp_tree cs hlw
              simp [treeHasUnsupported] at h
              rw [this] at h
              cases h
        rw [hw] at hiff
        cases hl : replaceList cs with
        | error e => rw [hl] at hiff; simp [isOkE] at hiff
        | ok cs2 => simp [replace_layers, hl, Except.map, isOkE]
  | container nm cs =>
      have hiff := replaceList_ok_eq cs
      constructor
      · intro h
        cases hl : replaceList cs with
        | error e => simp [replace_layers, hl, Except.map, isOkE]
        | ok cs2 =>
            rw [hl] at hiff
            simp [modelWalkUnsupported] at h
            simp [isOkE, h] at hiff
      · intro h
        have hw : listWalkUnsupported cs = false := by
          cases hlw : listWalkUnsupported cs with
          | false => rfl
          | true =>
              have := listWalkUnsupported_imp_tree cs hlw
              simp [treeHasUnsupported] at h
              rw [this] at h
              cases h
        rw [hw] at hiff
        cases hl : replaceList cs with
        | error e => rw [hl] at hiff; simp [isOkE] at hiff
        | ok cs2 => simp [replace_layers, hl, Except.map, isOkE]
  | quantAct p => exact ⟨fun h => by simp [modelWalkUnsupported] at h, fun h => rfl⟩
  | quantLinear p => exact ⟨fun h => by simp [modelWalkUnsupported] at h, fun h => rfl⟩
  | quantConv2d c => exact ⟨fun h => by simp [modelWalkUnsupported] at h, fun h => rfl⟩
  | quantBnConv2d => exact ⟨fun h => by simp [modelWalkUnsupported] at h, fun h => rfl⟩
  | quantMaxPool2d => exact ⟨fun h => by simp [modelWalkUnsupported] at h, fun h => rfl⟩
  | quantAveragePool2d =>
      exact ⟨fun h => by simp [modelWalkUnsupported] at h, fun h => rfl⟩
  | exportQuantAct e => exact ⟨fun h => by simp [modelWalkUnsupported] at h, fun h => rfl⟩
  | exportQuantLinear fc =>
      exact ⟨fun h => by simp [modelWalkUnsupported] at h, fun h => rfl⟩
  | exportQuantConv2d c =>
      exact ⟨fun h => by simp [modelWalkUnsupported] at h, fun h => rfl⟩
  | plainLayer nm => exact ⟨fun h => by simp [modelWalkUnsupported] at h, fun h => rfl⟩

/-- Witness for C8: a model with a top-level QuantBnConv2d makes
replace_layers raise, and a model with only a supported QuantAct does
not. -/
theorem replace_layers_unsupported_error_witness :
    isOkE (replace_layers unsupportedModel) = false ∧
    isOkE (replace_layers flatActModel) = true :=
  ⟨(replace_layers_unsupported_error unsupportedModel).1 rfl,
   (replace_layers_unsupported_error flatActModel).2 rfl⟩

/-
Heap lemmas for the export driver claims.
-/

theorem getObj_alloc_new (h : Heap) (m : NNModule) :
    Heap.getObj (Heap.alloc h m).1 (Heap.alloc h m).2 = m := by
  simp [Heap.alloc, Heap.getObj, List.getD_eq_getElem?_getD, List.getElem?_concat_length]

theorem getObj_alloc_old (h : Heap) (m : NNModule) (i : Nat) (hi : i < h.objs.length) :
    Heap.getObj (Heap.alloc h m).1 i = Heap.getObj h i := by
  simp [Heap.alloc, Heap.getObj, List.getD_eq_getElem?_getD, List.getElem?_append_left hi]

theorem getObj_set_other (h : Heap) (m : NNModule) (i j : Nat) (hij : i ≠ j) :
    Heap.getObj (Heap.setObj h i m) j = Heap.getObj h j := by
  simp [Heap.setObj, Heap.getObj, List.getD_eq_getElem?_getD, List.getElem?_set_ne hij]

theorem getObj_set_same (h : Heap) (m : NNModule) (i : Nat) (hi : i < h.objs.length) :
    Heap.getObj (Heap.setObj h i m) i = m := by
  simp [Heap.setObj, Heap.getObj, List.getD_eq_getElem?_getD, List.getElem?_set_self, hi]

/-- C3: export_to_qonnx mutates only the deep copy: on a successful call
the original model object still holds exactly its old module tree, the
returned export model is a different object, and that object holds the
replace_layers image of the original tree. -/
theorem export_to_qonnx_preserves_original :
    ∀ (h : Heap) (reg : List RegisteredOp) (mref : Nat) (inp : Tensor)
      (filename : Option String) (dateTime : String) (res : ExportResult),
      mref < h.objs.length →
      export_to_qonnx h reg (some mref) (some inp) filename dateTime = Except.ok res →
      Heap.getObj res.heap mref = Heap.getObj h mref ∧
      res.exportModel ≠ mref ∧
      replace_layers (Heap.getObj h mref) =
        Except.ok (Heap.getObj res.heap res.exportModel) := by
  intro h reg mref inp filename dateTime res hlt hexp
  have hcopy : Heap.getObj (deepcopy h mref).1 (deepcopy h mref).2 =
      Heap.getObj h mref := getObj_alloc_new h (Heap.getObj h mref)
  cases hrep : replace_layers (Heap.getObj h mref) with
  | error e =>
      simp [export_to_qonnx, hcopy, hrep] at hexp
  | ok newTree =>
      simp [export_to_qonnx, hcopy, hrep] at hexp
      subst hexp
      have hne : (deepcopy h mref).2 ≠ mref := by
        simp [deepcopy, Heap.alloc]
        omega
      have hlen : (deepcopy h mref).2 < ((deepcopy h mref).1).objs.length := by
        simp [deepcopy, Heap.alloc]
      refine ⟨?_, ?_, ?_⟩
      · show Heap.getObj
            (Heap.setObj (deepcopy h mref).1 (deepcopy h mref).2 newTree) mref =
          Heap.getObj h mref
        rw [getObj_set_other _ _ _ _ hne]
        exact getObj_alloc_old h (Heap.getObj h mref) mref hlt
      · show (deepcopy h mref).2 ≠ mref
        exact hne
      · show (Except.ok newTree : Except String NNModule) =
          Except.ok (Heap.getObj
            (Heap.setObj (deepcopy h mref).1 (deepcopy h mref).2 newTree)
            (deepcopy h mref).2)
        rw [getObj_set_same _ _ _ hlen]

/-- A one-object heap holding the flat sample model. -/
def sampleHeap : Heap :=
  { objs := [flatActModel] }

/-- The result expected from exporting sampleHeap's model: the copy at
reference 1 holds the replaced tree, the original at reference 0 is
untouched. -/
def sampleExportResult : ExportResult :=
  { heap :=
      { objs :=
          [ flatActModel
          , NNModule.container "Model"
              (NNModuleList.cons
                (NNModule.exportQuantAct (mkExportQuantAct sampleActParams))
                NNModuleList.nil) ] }
  , registry := register_custom_ops []
  , exportModel := 1
  , onnxCall := { modelRef := 1, input := sampleTensor, filename := "model.onnx" } }

/-- Witness for C3 on the concrete sample heap. -/
theorem export_to_qonnx_preserves_original_witness :
    (0 : Nat) < sampleHeap.objs.length ∧
    (Heap.getObj sampleExportResult.heap 0 = Heap.getObj sampleHeap 0 ∧
     sampleExportResult.exportModel ≠ 0 ∧
     replace_layers (Heap.getObj sampleHeap 0) =
       Except.ok (Heap.getObj sampleExportResult.heap sampleExportResult.exportModel)) :=
  ⟨by decide,
   export_to_qonnx_preserves_original sampleHeap [] 0 sampleTensor
     (some "model.onnx") "d" sampleExportResult (by decide) rfl⟩

/-- A heap whose only model contains an unsupported QuantBnConv2d. -/
def unsupportedHeap : Heap :=
  { objs := [unsupportedModel] }

/-- Counterexample to C9 as stated: export_to_qonnx raises a RuntimeError
on non-None model and input arguments, because replace_layers raises on
the unsupported layer inside the copied model; hence "raises iff model or
input is None" fails in the only-if direction. -/
theorem export_raises_beyond_none_checks :
    export_to_qonnx unsupportedHeap [] (some 0) (some sampleTensor)
        (some "model.onnx") "d" =
      Except.error "Unsupported layer type found QuantBnConv2d" ∧
    Option.some (0 : Nat) ≠ none ∧
    Option.some sampleTensor ≠ none :=
  ⟨rfl, by simp, by simp⟩

/-- C9 (amended): export_to_qonnx raises immediately, before any other
action, when model is None (message 'Model cannot be None') or, model
given, when input is None (message 'Input cannot be None'); overall it
raises a RuntimeError exactly when model is None, input is None, or
replace_layers fails on the model's tree (an unsupported layer reached by
the walk), the last error arising after registration and deep copy. -/
theorem export_to_qonnx_error_conditions :
    ∀ (h : Heap) (reg : List RegisteredOp) (model : Option Nat)
      (input : Option Tensor) (filename : Option String) (dateTime : String),
      (model = none →
        export_to_qonnx h reg model input filename dateTime =
          Except.error "Model cannot be None") ∧
      (∀ mref, model = some mref → input = none →
        export_to_qonnx h reg model input filename dateTime =
          Except.error "Input cannot be None") ∧
      (isOkE (export_to_qonnx h reg model input filename dateTime) = false ↔
        model = none ∨ input = none ∨
          ∃ mref, model = some mref ∧
            isOkE (replace_layers (Heap.getObj h mref)) = false) := by
  intro h reg model input filename dateTime
  cases model with
  | none =>
      refine ⟨fun _ => rfl, fun mref hm => Option.noConfusion hm, ?_⟩
      simp [export_to_qonnx, isOkE]
  | some mref =>
      cases input with
      | none =>
          refine ⟨fun hm => Option.noConfusion hm, fun r hr hi => rfl, ?_⟩
          simp [export_to_qonnx, isOkE]
      | some inp =>
          refine ⟨fun hm => Option.noConfusion hm, fun r hr hi => Option.noConfusion hi, ?_⟩
          have hcopy : Heap.getObj (deepcopy h mref).1 (deepcopy h mref).2 =
              Heap.getObj h mref := getObj_alloc_new h (Heap.getObj h mref)
          cases hrep : replace_layers (Heap.getObj h mref) with
          | error e =>
              constructor
              · intro _
                exact Or.inr (Or.inr ⟨mref, rfl, by simp [hrep, isOkE]⟩)
              · intro _
                simp [export_to_qonnx, hcopy, hrep, isOkE]
          | ok newTree =>
              constructor
              · intro hfalse
                simp [export_to_qonnx, hcopy, hrep, isOkE] at hfalse
              · rintro (hm | hi | ⟨r, hr, hrepf⟩)
                · cases hm
                · cases hi
                · have hrm : r = mref := (Option.some.inj hr).symm
                  subst hrm
                  rw [hrep] at hrepf
                  simp [isOkE] at hrepf

/-- Witness for the amended C9: the None check fires on a concrete call. -/
theorem export_to_qonnx_error_conditions_witness :
    export_to_qonnx sampleHeap [] none (some sampleTensor) none "d" =
      Except.error "Model cannot be None" :=
  (export_to_qonnx_error_conditions sampleHeap [] none (some sampleTensor)
      none "d").1 rfl
